import Mathlib

/-!
Verification development for the Mini-Server repository
(`src/mini_server/mini_server.py`), a minimal HTTP/1.1 server written
directly on stream sockets.

The Python source is shallowly embedded: byte strings become `List Nat`
(one `Nat` per byte), Python `str` becomes Lean `String` operated on via
its character list, Python dicts become insertion-ordered association
lists with Python's replace-in-place update semantics, the socket is a
list of chunks successively returned by `recv`, and exceptions become
`Except String`.  External library calls (`json.loads`, `json.dumps`,
`urllib.parse`) are modelled explicitly where their behaviour is
observable; `json.loads` is passed to the handlers as an oracle
`List Nat → Option Json` (`none` models `json.JSONDecodeError`).
Unicode-specific behaviour (non-ASCII whitespace, permissive UTF-8
decoding) is modelled bytewise / over ASCII; no claim depends on it.
-/

namespace MiniServer

/-- ASCII whitespace, modelling the characters Python's `str.strip()` and
`int(str)` treat as whitespace (the ASCII subset). -/
def pyIsSpace (c : Char) : Bool :=
  c = ' ' || c = '\t' || c = '\n' || c = '\r' || c = '\x0b' || c = '\x0c'

/-- Python `str.strip()` on a character list: drop whitespace at both ends. -/
def pyStripChars (cs : List Char) : List Char :=
  ((cs.dropWhile pyIsSpace).reverse.dropWhile pyIsSpace).reverse

/-- Python `str.strip()`. -/
def pyStrip (s : String) : String := String.mk (pyStripChars s.data)

/-- Python `str.lower()` (ASCII model). -/
def pyLower (s : String) : String := String.mk (s.data.map Char.toLower)

/-- Python `str.upper()` (ASCII model). -/
def pyUpper (s : String) : String := String.mk (s.data.map Char.toUpper)

/-- Prefix test on character lists (recursing on the pattern first). -/
def charsPrefix : List Char → List Char → Bool
  | [], _ => true
  | p :: ps, s =>
    match s with
    | [] => false
    | c :: cs => p == c && charsPrefix ps cs

/-- Python `str.startswith(pre)`. -/
def startswith (s pre : String) : Bool := charsPrefix pre.data s.data

/-- Bytes of a string, one byte per character (exact for the ASCII data the
claims exercise). -/
def strBytes (s : String) : List Nat := s.data.map Char.toNat

/-- Permissive byte-to-text decode, modelling `bytes.decode("utf-8",
errors="replace")` bytewise (exact for ASCII; never fails, as in the source). -/
def bytesToStr (bs : List Nat) : String := String.mk (bs.map Char.ofNat)

/-- Digit run of a Python integer literal after the sign: digits with single
underscores allowed between digits (`int("1_0") = 10`), accumulating a value.
Rejects leading/trailing/doubled underscores, as Python does. -/
def pyDigitsAux : Nat → List Char → Option Nat
  | acc, [] => some acc
  | acc, c :: cs =>
    if c.isDigit then pyDigitsAux (acc * 10 + (c.toNat - 48)) cs
    else if c = '_' then
      match cs with
      | [] => none
      | c2 :: cs2 => if c2.isDigit then pyDigitsAux (acc * 10 + (c2.toNat - 48)) cs2 else none
    else none

/-- Nonempty digit run (first character must be a digit). -/
def pyDigits : List Char → Option Nat
  | [] => none
  | c :: cs => if c.isDigit then pyDigitsAux (c.toNat - 48) cs else none

/-- Python `int(str)` on a character list: strip whitespace, optional single
sign, then a nonempty digit run; `none` models `ValueError`. -/
def pyIntOfChars (cs : List Char) : Option Int :=
  match pyStripChars cs with
  | '+' :: rest => (pyDigits rest).map Int.ofNat
  | '-' :: rest => (pyDigits rest).map (fun n => -(n : Int))
  | other => (pyDigits other).map Int.ofNat

/-- Python `int(str)`; `none` models `ValueError`. -/
def pyInt (s : String) : Option Int := pyIntOfChars s.data

/-- Insertion-ordered string dict with Python dict assignment semantics:
`d[k] = v` replaces the value in place when the key exists, else appends. -/
def pyDictSet (d : List (String × String)) (k v : String) : List (String × String) :=
  match d with
  | [] => [(k, v)]
  | (k0, v0) :: rest => if k0 = k then (k0, v) :: rest else (k0, v0) :: pyDictSet rest k v

/-- Python `dict.get(k, default)`. -/
def pyDictGetD (d : List (String × String)) (k dflt : String) : String :=
  (d.lookup k).getD dflt

/-- JSON values, as produced by `json.loads` (numbers modelled as integers;
no claim depends on float payloads). -/
inductive Json where
  | null : Json
  | bool : Bool → Json
  | num : Int → Json
  | str : String → Json
  | arr : List Json → Json
  | obj : List (String × Json) → Json

/-- Substring test on character lists (Python `needle in hay` for `str`). -/
def containsSub (needle : List Char) : List Char → Bool
  | [] => needle.isEmpty
  | c :: cs => charsPrefix needle (c :: cs) || containsSub needle cs

/-- Python truth value of a JSON-decoded object: `None`, `False`, `0`, `""`,
`[]`, `{}` are falsy. -/
def Json.falsy : Json → Bool
  | .null => true
  | .bool b => !b
  | .num n => n == 0
  | .str s => s == ""
  | .arr xs => xs.isEmpty
  | .obj kvs => kvs.isEmpty

/-- Python `payload.get(k)`: defined on dicts, `AttributeError` otherwise
(the fault raised when the decoded payload is not a JSON object). -/
def Json.pyGet : Json → String → Except String (Option Json)
  | .obj kvs, k => .ok (kvs.lookup k)
  | _, _ => .error "AttributeError: object has no attribute \x27get\x27"

/-- Python `k in payload`: key test on dicts, substring test on strings,
element test on lists, `TypeError` otherwise. -/
def Json.pyContains : Json → String → Except String Bool
  | .obj kvs, k => .ok (kvs.lookup k).isSome
  | .str s, k => .ok (containsSub k.data s.data)
  | .arr xs, k => .ok (xs.any (fun x => match x with | .str s => s == k | _ => false))
  | _, _ => .error "TypeError: argument of type is not iterable"

/-- Python `payload[k]`: subscription on dicts (the only form the source
reaches, always after a successful `k in payload`), `TypeError` otherwise. -/
def Json.pyIndex : Json → String → Except String Json
  | .obj kvs, k =>
    match kvs.lookup k with
    | some v => .ok v
    | none => .error "KeyError"
  | _, _ => .error "TypeError: object is not subscriptable"

/-- Python `(x or "").strip()` applied to an optional JSON value, as in the
`text` handling of the create/patch handlers: a missing or falsy value
coerces to `""`; a truthy non-string raises `AttributeError`. -/
def pyOrEmptyStrStrip : Option Json → Except String String
  | none => .ok ""
  | some v =>
    if v.falsy then .ok ""
    else
      match v with
      | .str s => .ok (pyStrip s)
      | _ => .error "AttributeError: object has no attribute \x27strip\x27"

/-- `json.dumps` escaping is not needed for the claims; strings are emitted
between plain quotes (`ensure_ascii=False` leaves non-ASCII unescaped). -/
def jsonQuote (s : String) : String := "\"" ++ s ++ "\""

mutual

/-- Models `json.dumps(obj, ensure_ascii=False, indent=2)` up to
whitespace/escaping of the rendered text; no claim depends on the exact
wire text, only on which JSON value is serialized. -/
def jsonDumps : Json → String
  | .null => "null"
  | .bool true => "true"
  | .bool false => "false"
  | .num n => toString n
  | .str s => jsonQuote s
  | .arr xs => "[" ++ jsonDumpsList xs ++ "]"
  | .obj kvs => "\x7b" ++ jsonDumpsObj kvs ++ "\x7d"

def jsonDumpsList : List Json → String
  | [] => ""
  | [x] => jsonDumps x
  | x :: xs => jsonDumps x ++ ", " ++ jsonDumpsList xs

def jsonDumpsObj : List (String × Json) → String
  | [] => ""
  | [(k, v)] => jsonQuote k ++ ": " ++ jsonDumps v
  | (k, v) :: kvs => jsonQuote k ++ ": " ++ jsonDumps v ++ ", " ++ jsonDumpsObj kvs

end

/-- The source's `REASONS` table (`mini_server.py` lines 21-30). -/
def REASONS : List (Nat × String) :=
  [(200, "OK"), (201, "Created"), (204, "No Content"), (400, "Bad Request"),
   (404, "Not Found"), (405, "Method Not Allowed"), (422, "Unprocessable Entity"),
   (500, "Internal Server Error")]

/-- A response value: the status line data, the final ordered header dict,
and the body bytes, from which `renderResponse` produces the wire bytes. -/
structure HttpResponse where
  status : Nat
  reason : String
  headers : List (String × String)
  body : List Nat
deriving DecidableEq

/-- `http_response` (`mini_server.py` lines 32-49): reason from `REASONS`
(default "OK"); base headers Server, Connection, Content-Length (from the
actual body length); a default Content-Type only when the body is nonempty
and the caller supplied none; then `base_headers.update(headers)` applies
the caller's headers over the defaults. -/
def http_response (status : Nat) (body : List Nat) (headers : List (String × String)) :
    HttpResponse :=
  let reason := (REASONS.lookup status).getD "OK"
  let base := [("Server", "mini-server"), ("Connection", "close"),
               ("Content-Length", toString body.length)]
  let base := if headers.lookup "Content-Type" = none ∧ body ≠ [] then
                base ++ [("Content-Type", "text/plain; charset=utf-8")]
              else base
  let final := headers.foldl (fun d kv => pyDictSet d kv.1 kv.2) base
  ⟨status, reason, final, body⟩

/-- The serialization step of `http_response`: status line, `k: v` lines in
dict order, blank line, body. -/
def renderResponse (r : HttpResponse) : List Nat :=
  strBytes ("HTTP/1.1 " ++ toString r.status ++ " " ++ r.reason ++ "\r\n"
    ++ String.join (r.headers.map (fun kv => kv.1 ++ ": " ++ kv.2 ++ "\r\n"))
    ++ "\r\n") ++ r.body

/-- `json_response` (`mini_server.py` lines 51-53). -/
def json_response (status : Nat) (obj : Json) : HttpResponse :=
  http_response status (strBytes (jsonDumps obj))
    [("Content-Type", "application/json; charset=utf-8")]

/-- Split a character list at the first occurrence of `sep`, as Python
`s.split(sep, 1)` (with `none` when `sep` does not occur). -/
def splitOnceChar (sep : Char) : List Char → Option (List Char × List Char)
  | [] => none
  | c :: cs =>
    if c = sep then some ([], cs)
    else (splitOnceChar sep cs).map (fun ab => (c :: ab.1, ab.2))

/-- Python `s.split(sep)` for a single-character separator (never returns
an empty list; splitting the empty string yields `[""]`). -/
def splitAllChar (sep : Char) : List Char → List (List Char)
  | [] => [[]]
  | c :: cs =>
    if c = sep then [] :: splitAllChar sep cs
    else
      match splitAllChar sep cs with
      | [] => [[c]]
      | p :: ps => (c :: p) :: ps

/-- The header/body separator `b"\r\n\r\n"`. -/
def sepBytes : List Nat := [13, 10, 13, 10]

/-- `data.split(b"\r\n\r\n", 1)` on bytes: leftmost split at the four-byte
separator, `none` when it does not occur. -/
def splitSep4 : List Nat → Option (List Nat × List Nat)
  | 13 :: 10 :: 13 :: 10 :: rest => some ([], rest)
  | [] => none
  | b :: rest => (splitSep4 rest).map (fun ab => (b :: ab.1, ab.2))

/-- `blob.split(b"\r\n")` on bytes: leftmost, non-overlapping splits at the
two-byte CRLF separator. -/
def splitCRLF : List Nat → List (List Nat)
  | 13 :: 10 :: rest => [] :: splitCRLF rest
  | [] => [[]]
  | b :: rest =>
    match splitCRLF rest with
    | [] => [[b]]
    | p :: ps => (b :: p) :: ps

/-- The header-line loop shared (verbatim, by duplication in the source) by
`recv_http` and `parse_request`: decode each line permissively, skip lines
without a colon, otherwise split at the first colon and store
`k.strip().lower() ↦ v.strip()` with last-occurrence-wins dict assignment. -/
def headersFromLines (lines : List (List Nat)) : List (String × String) :=
  lines.foldl (fun d line =>
    let s := bytesToStr line
    match splitOnceChar ':' s.data with
    | none => d
    | some kv => pyDictSet d (pyLower (pyStrip (String.mk kv.1))) (pyStrip (String.mk kv.2))) []

/-- A Todo, the entries of `STATE["todos"]` (`created_at` modelled as a
natural timestamp obtained from the `now` argument threaded to the create
handler in place of `time.time()`). -/
structure Todo where
  id : Int
  text : String
  done : Bool
  created_at : Nat
deriving DecidableEq

/-- The mutable server state `STATE` (`mini_server.py` lines 13-17):
the todo list and the id counter (`started_at` is only read by the health
handler). -/
structure State where
  todos : List Todo
  next_id : Int
  started_at : Nat
deriving DecidableEq

/-- The initial `STATE`: empty todos, counter at 1 (`started_at` 0 stands
for the process start timestamp). -/
def initState : State := { todos := [], next_id := 1, started_at := 0 }

/-- The Todo JSON shape, field order as built in `handle_create_todo`. -/
def todoToJson (t : Todo) : Json :=
  .obj [("id", .num t.id), ("text", .str t.text), ("done", .bool t.done),
        ("created_at", .num t.created_at)]

/-- A parsed request, the tuple assembled by `parse_request` and carried by
`handle_client` as `req`. -/
structure Request where
  method : String
  path : String
  query : List (String × List String)
  headers : List (String × String)
  body : List Nat

/-- The router's handler values: the source returns handler functions (the
dynamic ones as closures binding `todo_id`); they are embedded as a tagged
variant carrying the parsed id, dispatched by `runHandler`. -/
inductive Handler where
  | home : Handler
  | health : Handler
  | listTodos : Handler
  | create : Handler
  | patch : Int → Handler
  | delete : Int → Handler
deriving DecidableEq

/-- The router's status strings. -/
inductive RouteStatus where
  | OK : RouteStatus
  | METHOD_NOT_ALLOWED : RouteStatus
  | NOT_FOUND : RouteStatus
deriving DecidableEq

/-- `path.split("/", 2)` for the dynamic-segment extraction (at most two
splits, hence at most three parts). -/
def pySplitMax2 (sep : Char) (xs : List Char) : List (List Char) :=
  match splitOnceChar sep xs with
  | none => [xs]
  | some ar =>
    match splitOnceChar sep ar.2 with
    | none => [ar.1, ar.2]
    | some br => [ar.1, br.1, br.2]

/-- `route` (`mini_server.py` lines 145-182): static routes `/`, `/health`,
`/todos`, then the dynamic family `path.startswith("/todos/")` whose
segment `path.split("/", 2)[2]` must parse as a Python int (any failure is
caught and classified NOT_FOUND); otherwise NOT_FOUND. -/
def route (method path : String) : RouteStatus × Option Handler :=
  if path = "/" then
    if method ≠ "GET" then (.METHOD_NOT_ALLOWED, none) else (.OK, some .home)
  else if path = "/health" then
    if method ≠ "GET" then (.METHOD_NOT_ALLOWED, none) else (.OK, some .health)
  else if path = "/todos" then
    if method = "GET" then (.OK, some .listTodos)
    else if method = "POST" then (.OK, some .create)
    else (.METHOD_NOT_ALLOWED, none)
  else if startswith path "/todos/" then
    match pyIntOfChars ((pySplitMax2 '/' path.data).getD 2 []) with
    | none => (.NOT_FOUND, none)
    | some todo_id =>
      if method = "PATCH" then (.OK, some (.patch todo_id))
      else if method = "DELETE" then (.OK, some (.delete todo_id))
      else (.METHOD_NOT_ALLOWED, none)
  else (.NOT_FOUND, none)

/-- `req["body"] or b"{}"`: an empty body coerces to the two bytes of an
empty JSON object before `json.loads`. -/
def effBody (body : List Nat) : List Nat := if body = [] then [123, 125] else body

/-- Static HTML page of `handle_home`; the page text is elided (no claim
depends on it), only its transport through `http_response` is modelled. -/
def home_body : List Nat := strBytes "Mini HTTP Server"

/-- `handle_home` (`mini_server.py` lines 186-213). -/
def handle_home (_req : Request) (st : State) : Except String HttpResponse × State :=
  (.ok (http_response 200 home_body [("Content-Type", "text/html; charset=utf-8")]), st)

/-- `handle_health` (`mini_server.py` lines 215-217); uptime rounding is
elided with the natural-valued clock. -/
def handle_health (_req : Request) (st : State) (now : Nat) :
    Except String HttpResponse × State :=
  (.ok (json_response 200 (.obj [("status", .str "ok"),
    ("uptime_seconds", .num ((now : Int) - st.started_at)),
    ("todos", .num st.todos.length)])), st)

/-- `handle_list_todos` (`mini_server.py` lines 219-231): optional
`?done=true/1/yes` / `false/0/no` filter (case-insensitive); any other
value leaves the collection unfiltered; `query["done"][0]` on an empty
value list would raise `IndexError`. -/
def handle_list_todos (req : Request) (st : State) : Except String HttpResponse × State :=
  match req.query.lookup "done" with
  | none => (.ok (json_response 200 (.obj [("todos", .arr (st.todos.map todoToJson))])), st)
  | some [] => (.error "IndexError: list index out of range", st)
  | some (v :: _) =>
    let val := pyLower v
    let todos :=
      if val = "true" || val = "1" || val = "yes" then st.todos.filter (fun t => t.done)
      else if val = "false" || val = "0" || val = "no" then st.todos.filter (fun t => !t.done)
      else st.todos
    (.ok (json_response 200 (.obj [("todos", .arr (todos.map todoToJson))])), st)

/-- `handle_create_todo` (`mini_server.py` lines 233-249).  `loads` is the
`json.loads` oracle (`none` = `JSONDecodeError`); `now` stands for
`time.time()`.  Returns the handler's outcome (`.error` models an
exception escaping to the dispatcher) together with the resulting state. -/
def handle_create_todo (loads : List Nat → Option Json) (req : Request) (st : State)
    (now : Nat) : Except String HttpResponse × State :=
  if startswith (pyDictGetD req.headers "content-type" "") "application/json" = false then
    (.ok (json_response 422 (.obj [("error", .str "Expected Content-Type: application/json")])), st)
  else
    match loads (effBody req.body) with
    | none => (.ok (json_response 400 (.obj [("error", .str "Invalid JSON")])), st)
    | some payload =>
      match payload.pyGet "text" with
      | .error e => (.error e, st)
      | .ok got =>
        match pyOrEmptyStrStrip got with
        | .error e => (.error e, st)
        | .ok text =>
          if text = "" then
            (.ok (json_response 422 (.obj [("error", .str "Field \x27text\x27 is required")])), st)
          else
            let todo : Todo := ⟨st.next_id, text, false, now⟩
            (.ok (json_response 201 (todoToJson todo)),
             { st with todos := st.todos ++ [todo], next_id := st.next_id + 1 })

/-- Replace the first element satisfying `p` (the effect of mutating, in
place, the dict object returned by `next(t for t in todos if ...)`). -/
def replaceFirst (l : List Todo) (p : Todo → Bool) (new : Todo) : List Todo :=
  match l with
  | [] => []
  | t :: ts => if p t then new :: ts else t :: replaceFirst ts p new

/-- Continuation of `handle_patch_todo` after the `text` phase: the `done`
field check and update (`mini_server.py` lines 270-275); `todo` is the
current value of the mutated dict, `st` the store holding it. -/
def patchDone (payload : Json) (todo_id : Int) (todo : Todo) (st : State) :
    Except String HttpResponse × State :=
  match payload.pyContains "done" with
  | .error e => (.error e, st)
  | .ok hasDone =>
    if hasDone then
      match payload.pyIndex "done" with
      | .error e => (.error e, st)
      | .ok dv =>
        match dv with
        | .bool b =>
          let todo2 := { todo with done := b }
          (.ok (json_response 200 (todoToJson todo2)),
           { st with todos := replaceFirst st.todos (fun t => t.id == todo_id) todo2 })
        | _ =>
          (.ok (json_response 422 (.obj [("error", .str "Field \x27done\x27 must be boolean")])), st)
    else (.ok (json_response 200 (todoToJson todo)), st)

/-- `handle_patch_todo` (`mini_server.py` lines 251-275): content-type
check, 404 lookup, JSON parse, then the `text` update (mutating the stored
todo in place *before* the `done` field is validated) followed by
`patchDone`. -/
def handle_patch_todo (loads : List Nat → Option Json) (req : Request) (todo_id : Int)
    (st : State) : Except String HttpResponse × State :=
  if startswith (pyDictGetD req.headers "content-type" "") "application/json" = false then
    (.ok (json_response 422 (.obj [("error", .str "Expected Content-Type: application/json")])), st)
  else
    match st.todos.find? (fun t => t.id == todo_id) with
    | none => (.ok (json_response 404 (.obj [("error", .str "Todo not found")])), st)
    | some todo =>
      match loads (effBody req.body) with
      | none => (.ok (json_response 400 (.obj [("error", .str "Invalid JSON")])), st)
      | some payload =>
        match payload.pyContains "text" with
        | .error e => (.error e, st)
        | .ok hasText =>
          if hasText then
            match payload.pyGet "text" with
            | .error e => (.error e, st)
            | .ok got =>
              match pyOrEmptyStrStrip got with
              | .error e => (.error e, st)
              | .ok new_text =>
                if new_text = "" then
                  (.ok (json_response 422 (.obj [("error", .str "Field \x27text\x27 cannot be empty")])), st)
                else
                  let todo1 := { todo with text := new_text }
                  let st1 := { st with todos := replaceFirst st.todos (fun t => t.id == todo_id) todo1 }
                  patchDone payload todo_id todo1 st1
          else patchDone payload todo_id todo st

/-- `handle_delete_todo` (`mini_server.py` lines 277-282): 404 when no todo
has the id, else pop the first index whose todo matches and return 204
with an empty body. -/
def handle_delete_todo (_req : Request) (todo_id : Int) (st : State) :
    Except String HttpResponse × State :=
  match st.todos.findIdx? (fun t => t.id == todo_id) with
  | none => (.ok (json_response 404 (.obj [("error", .str "Todo not found")])), st)
  | some i => (.ok (http_response 204 [] []), { st with todos := st.todos.eraseIdx i })

/-- Dispatch a matched handler (the call `handler(req)` in
`handle_client`), threading the shared store and the clock. -/
def runHandler (loads : List Nat → Option Json) (h : Handler) (req : Request) (st : State)
    (now : Nat) : Except String HttpResponse × State :=
  match h with
  | .home => handle_home req st
  | .health => handle_health req st now
  | .listTodos => handle_list_todos req st
  | .create => handle_create_todo loads req st now
  | .patch i => handle_patch_todo loads req i st
  | .delete i => handle_delete_todo req i st

/-- The routing/handling part of `handle_client` (`mini_server.py` lines
292-307): 404/405 short-circuits, handler invocation, and the
fault-absorbing `except` turning any handler exception into a 500 JSON
response carrying the fault's string detail (state changes made before the
fault persist, as they do on the shared Python `STATE`). -/
def dispatch (loads : List Nat → Option Json) (req : Request) (st : State) (now : Nat) :
    HttpResponse × State :=
  match route req.method req.path with
  | (.NOT_FOUND, _) => (json_response 404 (.obj [("error", .str "Not found")]), st)
  | (.METHOD_NOT_ALLOWED, _) => (json_response 405 (.obj [("error", .str "Method not allowed")]), st)
  | (.OK, some h) =>
    match runHandler loads h req st now with
    | (.ok resp, st2) => (resp, st2)
    | (.error e, st2) =>
      (json_response 500 (.obj [("error", .str "Internal server error"), ("detail", .str e)]), st2)
  | (.OK, none) =>
    (json_response 500 (.obj [("error", .str "Internal server error"),
      ("detail", .str "TypeError: NoneType object is not callable")]), st)

/-- The header-scan loop of `recv_http` (`mini_server.py` lines 106-114).
The socket is modelled as the list of chunks successive `recv` calls
return (an empty chunk models the peer having closed the stream; list
exhaustion likewise).  While the buffer lacks `\r\n\r\n`: take the next
chunk (empty chunk breaks the loop), append it, and fail with
"Request too large" as soon as the buffer exceeds 2,000,000 bytes.
Returns the buffer and the unconsumed stream. -/
def recvLoop : List (List Nat) → List Nat → Except String (List Nat × List (List Nat))
  | [], data => .ok (data, [])
  | c :: cs, data =>
    if (splitSep4 data).isSome then .ok (data, c :: cs)
    else if c = [] then .ok (data, c :: cs)
    else if (data ++ c).length > 2000000 then .error "Request too large"
    else recvLoop cs (data ++ c)

/-- `read_exact` (`mini_server.py` lines 91-100): read up to `n` further
bytes from the stream, stopping early at end-of-stream; returns the bytes
and the unconsumed stream. -/
def read_exact : List (List Nat) → Nat → List Nat × List (List Nat)
  | chunks, n =>
    if n = 0 then ([], chunks)
    else
      match chunks with
      | [] => ([], [])
      | c :: cs =>
        if c = [] then ([], c :: cs)
        else if c.length ≤ n then
          let r := read_exact cs (n - c.length)
          (c ++ r.1, r.2)
        else (c.take n, c.drop n :: cs)

/-- The local header re-parse of `recv_http` (`mini_server.py` lines
120-126): split the header blob on CRLF, drop the request line, and run
the colon-splitting header loop. -/
def recvHeaders (header_blob : List Nat) : List (String × String) :=
  headersFromLines ((splitCRLF header_blob).drop 1)

/-- `recv_http` (`mini_server.py` lines 102-141): scan for the header
separator (`recvLoop`); if it never arrived return the partial buffer
as-is; otherwise re-parse the headers locally, and when `content-length`
is present parse it as a Python int ("Invalid Content-Length" on failure)
and read exactly the missing body bytes when the declared length exceeds
what is already buffered. -/
def recv_http (chunks : List (List Nat)) : Except String (List Nat) :=
  match recvLoop chunks [] with
  | .error e => .error e
  | .ok (data, rest) =>
    match splitSep4 data with
    | none => .ok data
    | some hr =>
      match (recvHeaders hr.1).lookup "content-length" with
      | none => .ok data
      | some cl =>
        match pyInt cl with
        | none => .error "Invalid Content-Length"
        | some len =>
          let missing : Int := len - hr.2.length
          if missing > 0 then
            .ok (hr.1 ++ sepBytes ++ hr.2 ++ (read_exact rest missing.toNat).1)
          else .ok (hr.1 ++ sepBytes ++ hr.2)

/-- `s.split()` with no argument: split on runs of whitespace, discarding
empty fields (used on the request line). -/
def pySplitWsAux : List Char → List Char → List (List Char)
  | [], acc => if acc = [] then [] else [acc.reverse]
  | c :: cs, acc =>
    if pyIsSpace c then
      if acc = [] then pySplitWsAux cs [] else acc.reverse :: pySplitWsAux cs []
    else pySplitWsAux cs (c :: acc)

/-- `s.split()` with no argument. -/
def pySplitWs (cs : List Char) : List (List Char) := pySplitWsAux cs []

/-- Hexadecimal digit test for percent-escape decoding. -/
def isHexChar (c : Char) : Bool :=
  c.isDigit || ('a' ≤ c && c ≤ 'f') || ('A' ≤ c && c ≤ 'F')

/-- Value of a hexadecimal digit character. -/
def hexVal (c : Char) : Nat :=
  if c.isDigit then c.toNat - 48
  else if 'a' ≤ c && c ≤ 'f' then c.toNat - 87
  else c.toNat - 55

/-- Percent-decoding of `urllib.parse.unquote` (bytewise/ASCII model:
`%XX` hex pairs become the byte's character, malformed escapes pass
through). -/
def unquoteChars : List Char → List Char
  | [] => []
  | '%' :: a :: b :: rest =>
    if isHexChar a && isHexChar b then
      Char.ofNat (16 * hexVal a + hexVal b) :: unquoteChars rest
    else '%' :: unquoteChars (a :: b :: rest)
  | c :: rest => c :: unquoteChars rest

/-- `unquote(field.replace("+", " "))` as `parse_qsl` applies it to each
name and value. -/
def unquotePlus (cs : List Char) : String :=
  String.mk (unquoteChars (cs.map (fun c => if c = '+' then ' ' else c)))

/-- One `name=value` field of `urllib.parse.parse_qsl` with the source's
default arguments (`keep_blank_values=False`, `strict_parsing=False`):
empty fields, fields without `=`, and fields whose raw value is empty are
all skipped; kept fields have name and value `+`/percent-decoded. -/
def qslField (f : List Char) : Option (String × String) :=
  if f = [] then none
  else
    match splitOnceChar '=' f with
    | none => none
    | some nv => if nv.2 = [] then none else some (unquotePlus nv.1, unquotePlus nv.2)

/-- `urllib.parse.parse_qsl(qs)` with the defaults used via `parse_qs`:
the `&`-separated fields, each filtered/decoded by `qslField`, in order. -/
def parse_qsl (qs : String) : List (String × String) :=
  (splitAllChar '&' qs.data).filterMap qslField

/-- Append a value to a key's list with Python dict semantics (the
`parse_qs` accumulation loop: append in place when the key exists, else
insert the key at the end with a singleton list). -/
def qsInsert (d : List (String × List String)) (k v : String) : List (String × List String) :=
  match d with
  | [] => [(k, [v])]
  | (k0, vs) :: rest => if k0 = k then (k0, vs ++ [v]) :: rest else (k0, vs) :: qsInsert rest k v

/-- `urllib.parse.parse_qs(qs)`: group the `parse_qsl` pairs into an
ordered mapping from name to the list of its values in order of
appearance. -/
def parse_qs (qs : String) : List (String × List String) :=
  (parse_qsl qs).foldl (fun d nv => qsInsert d nv.1 nv.2) []

/-- The path/query components `urlparse` yields for the origin-form
request targets this server receives: the fragment (after the first `#`)
is discarded, the query is the part after the first `?`, the path the part
before it.  (Scheme/netloc/params handling for absolute-form targets is
not modelled; no claim depends on it.) -/
def urlsplitPQ (target : String) : String × String :=
  let nofrag := match splitOnceChar '#' target.data with
                | none => target.data
                | some af => af.1
  match splitOnceChar '?' nofrag with
  | none => (String.mk nofrag, "")
  | some pq => (String.mk pq.1, String.mk pq.2)

/-- `parse_request` (`mini_server.py` lines 55-89): split once on the
header/body separator (failure: malformed request), split the header blob
into CRLF lines, require exactly three whitespace-separated request-line
tokens, require the version token to start with `HTTP/`, build the
headers dict (lines without a colon silently skipped, names lowercased
and trimmed, last occurrence wins), parse the target into path and query
(`parse_qs` grouping), and return the upper-cased method with the
untouched body bytes. -/
def parse_request (raw : List Nat) :
    Except String (String × String × List (String × List String) × List (String × String) × List Nat) :=
  match splitSep4 raw with
  | none => .error "Malformed HTTP request (missing header/body separator)"
  | some hb =>
    match splitCRLF hb.1 with
    | [] => .error "Empty request"
    | reqLine :: headerLines =>
      let request_line := bytesToStr reqLine
      match pySplitWs request_line.data with
      | [m, t, v] =>
        let version := String.mk v
        if startswith version "HTTP/" = false then
          .error ("Bad HTTP version: " ++ version)
        else
          let headers := headersFromLines headerLines
          let pq := urlsplitPQ (String.mk t)
          .ok (pyUpper (String.mk m), pq.1, parse_qs pq.2, headers, hb.2)
      | _ => .error ("Bad request line: " ++ request_line)

/-- `handle_client` (`mini_server.py` lines 286-312) up to the byte stream
written back: frame, parse, dispatch; any framing or parsing failure is
converted to the 500 JSON response carrying the failure's detail, and the
store is untouched in that case. -/
def handle_client (loads : List Nat → Option Json) (chunks : List (List Nat)) (st : State)
    (now : Nat) : HttpResponse × State :=
  match recv_http chunks with
  | .error e =>
    (json_response 500 (.obj [("error", .str "Internal server error"), ("detail", .str e)]), st)
  | .ok raw =>
    match parse_request raw with
    | .error e =>
      (json_response 500 (.obj [("error", .str "Internal server error"), ("detail", .str e)]), st)
    | .ok r =>
      dispatch loads { method := r.1, path := r.2.1, query := r.2.2.1,
                       headers := r.2.2.2.1, body := r.2.2.2.2 } st now

/-- One served request's effect on the shared store: for some `json.loads`
behaviour, parsed request, and clock reading, the dispatcher transforms
the store as `dispatch` does (covering every handler, the 404/405
short-circuits, and the fault-absorbing 500 path). -/
inductive StepR : State → State → Prop where
  | serve : ∀ (loads : List Nat → Option Json) (req : Request) (now : Nat) (s : State),
      StepR s (dispatch loads req s now).2

/-- Store states reachable from the initial store by serving requests. -/
def Reachable (s : State) : Prop := Relation.ReflTransGen StepR initState s

/-- The id-uniqueness invariant: all stored ids are distinct and strictly
below the counter. -/
def StoreInv (s : State) : Prop :=
  (s.todos.map Todo.id).Nodup ∧ ∀ t ∈ s.todos, t.id < s.next_id

/-- A successful create: the create handler returned normally from `st`
and appended the todo `t`, yielding `st2`. -/
def CreateStep (st : State) (t : Todo) (st2 : State) : Prop :=
  ∃ loads req now r, handle_create_todo loads req st now = (Except.ok r, st2)
    ∧ st2.todos = st.todos ++ [t]

/-- The claim's "the accumulated buffer exceeds 2,000,000 bytes while
scanning for the header separator", stated independently of `recvLoop`:
starting from buffer `data`, there is a positive number `i` of chunk
appends after which the buffer exceeds the cap, every chunk taken before
that point being nonempty (the stream still open) and appended while the
separator was still absent from the buffer. -/
def ScanFrom (data : List Nat) (chunks : List (List Nat)) : Prop :=
  ∃ i, 0 < i ∧ i ≤ chunks.length
    ∧ 2000000 < (data ++ (chunks.take i).flatten).length
    ∧ ∀ j, j < i → chunks.getD j [] ≠ []
        ∧ (splitSep4 (data ++ (chunks.take j).flatten)).isSome = false

/-- The ordered sequence of values associated with a parameter name, in
order of appearance among the kept `name=value` pairs (the grouping the
spec describes for `query`). -/
def gatherVals (k : String) (ps : List (String × String)) : List String :=
  ps.filterMap (fun p => if p.1 = k then some p.2 else none)

/-- Fixture: caller-supplied header mapping overriding `Content-Length`. -/
def c2hdrs : List (String × String) := [("Content-Length", "999")]

/-- Fixture: a DELETE request (the delete handler ignores the request). -/
def c7req : Request :=
  { method := "DELETE", path := "/todos/1", query := [], headers := [], body := [] }

/-- Fixture: a store holding one todo with id 1. -/
def c7st : State :=
  { todos := [{ id := 1, text := "a", done := false, created_at := 0 }],
    next_id := 2, started_at := 0 }

/-- The `text` rejections of the create handler's text phase (see
`textRejected`): the lookup is missing or falsy (both coerced to `""` by
`or ""`), or a string that strips to the empty string — exactly the cases
in which `(payload.get("text") or "").strip()` is empty. -/
def textStrEmpty : Json → Bool
  | .str s => pyStrip s == ""
  | _ => false

/-- See `textRejected`. -/
def textRejected (kvs : List (String × Json)) : Bool :=
  match kvs.lookup "text" with
  | none => true
  | some v => v.falsy || textStrEmpty v

/-- Fixture: `json.loads` oracle decoding the body byte `"T"` to
`{"text": true}` (present, truthy, not a string). -/
def c3loads : List Nat → Option Json :=
  fun bs => if bs = [84] then some (Json.obj [("text", Json.bool true)]) else none

/-- Fixture: a POST /todos request with JSON content type and body `"T"`. -/
def c3req : Request :=
  { method := "POST", path := "/todos", query := [],
    headers := [("content-type", "application/json")], body := [84] }

/-- Fixture: `json.loads` oracle decoding the body byte `"H"` to
`{"text": " hi "}`. -/
def c3okloads : List Nat → Option Json :=
  fun bs => if bs = [72] then some (Json.obj [("text", Json.str " hi ")]) else none

/-- Fixture: a POST /todos request with JSON content type and body `"H"`. -/
def c3okreq : Request :=
  { method := "POST", path := "/todos", query := [],
    headers := [("content-type", "application/json")], body := [72] }

/-- Fixture: a framed request whose declared Content-Length is not an
integer. -/
def c5chunk : List Nat := strBytes "GET / HTTP/1.1\r\ncontent-length: abc\r\n\r\n"

/-- Fixture: the header blob of `c5chunk`. -/
def c5hb : List Nat := strBytes "GET / HTTP/1.1\r\ncontent-length: abc"

/-- Fixture: a framed request whose declared Content-Length is negative. -/
def c10chunk : List Nat := strBytes "GET / HTTP/1.1\r\ncontent-length: -5\r\n\r\n"

/-- Fixture: the header blob of `c10chunk`. -/
def c10hb : List Nat := strBytes "GET / HTTP/1.1\r\ncontent-length: -5"

/-- Fixture: `json.loads` oracle decoding the body byte `"5"` to the JSON
number 5 (valid JSON that is not an object). -/
def c9loads : List Nat → Option Json := fun bs => if bs = [53] then some (Json.num 5) else none

/-- Fixture: a POST /todos request with JSON content type and body `"5"`. -/
def c9req : Request :=
  { method := "POST", path := "/todos", query := [],
    headers := [("content-type", "application/json")], body := [53] }

/-- Fixture: a PATCH payload with a valid `text` and a non-boolean `done`. -/
def c8payload : Json := Json.obj [("text", .str "new"), ("done", .num 1)]

/-- Fixture: `json.loads` oracle decoding the one-byte body to `c8payload`. -/
def c8loads : List Nat → Option Json := fun bs => if bs = [66] then some c8payload else none

/-- Fixture: a PATCH request with JSON content type. -/
def c8req : Request :=
  { method := "PATCH", path := "/todos/1", query := [],
    headers := [("content-type", "application/json")], body := [66] }

/-- Fixture: a store holding one todo with id 1 and text "old". -/
def c8st : State :=
  { todos := [{ id := 1, text := "old", done := false, created_at := 0 }],
    next_id := 2, started_at := 0 }

/-! ## Theorems -/

theorem string_mk_data (s : String) : String.mk s.data = s := by
  cases s
  rfl

theorem lookup_pyDictSet_ne (d : List (String × String)) (k k' v : String) (h : k' ≠ k) :
    (pyDictSet d k' v).lookup k = d.lookup k := by
  induction d with
  | nil =>
    have hk : (k == k') = false := beq_eq_false_iff_ne.mpr (Ne.symm h)
    simp [pyDictSet, List.lookup, hk]
  | cons p rest ih =>
    obtain ⟨k0, v0⟩ := p
    by_cases h0 : k0 = k'
    · subst h0
      have hk : (k == k0) = false := beq_eq_false_iff_ne.mpr (Ne.symm h)
      simp [pyDictSet, List.lookup, hk]
    · simp only [pyDictSet, if_neg h0, List.lookup]
      cases hbeq : k == k0 <;> simp [hbeq, ih]

theorem lookup_foldl_pyDictSet (hs : List (String × String)) (d : List (String × String))
    (k : String) (h : ∀ p ∈ hs, p.1 ≠ k) :
    (hs.foldl (fun d kv => pyDictSet d kv.1 kv.2) d).lookup k = d.lookup k := by
  induction hs generalizing d with
  | nil => rfl
  | cons p rest ih =>
    simp only [List.foldl_cons]
    rw [ih _ (fun q hq => h q (List.mem_cons_of_mem p hq))]
    exact lookup_pyDictSet_ne d k p.1 p.2 (h p (List.mem_cons_self p rest))

/-- C2 fails as stated: the claim quantifies over *every* caller-supplied
header mapping, but `base_headers.update(headers)` lets the caller
override the defaults.  With body `b""` and caller headers
`{"Content-Length": "999"}`, the response's `Content-Length` header is
`"999"`, not the body length `"0"`. -/
theorem C2_content_length_override_counterexample :
    (http_response 200 [] c2hdrs).headers.lookup "Content-Length" = some "999"
    ∧ toString (List.length ([] : List Nat)) = "0"
    ∧ (http_response 200 [] c2hdrs).headers.lookup "Content-Length"
        ≠ some (toString (List.length ([] : List Nat))) := by
  refine ⟨by decide, by decide, ?_⟩
  decide

/-- C2 amended: for every status code, body byte sequence, and
caller-supplied header mapping *that does not itself contain a
Content-Length, Server, or Connection entry* (caller headers override the
defaults), the Response Writer's output contains a Content-Length header
whose value is the exact byte length of the body, the fixed Server
identifier header, and a Connection: close header. -/
theorem C2_mandatory_headers_amended (status : Nat) (body : List Nat)
    (headers : List (String × String))
    (h1 : ∀ p ∈ headers, p.1 ≠ "Content-Length")
    (h2 : ∀ p ∈ headers, p.1 ≠ "Server")
    (h3 : ∀ p ∈ headers, p.1 ≠ "Connection") :
    (http_response status body headers).headers.lookup "Content-Length"
        = some (toString body.length)
    ∧ (http_response status body headers).headers.lookup "Server" = some "mini-server"
    ∧ (http_response status body headers).headers.lookup "Connection" = some "close" := by
  have hbase :
      (http_response status body headers).headers =
        headers.foldl (fun d kv => pyDictSet d kv.1 kv.2)
          (if headers.lookup "Content-Type" = none ∧ body ≠ [] then
            [("Server", "mini-server"), ("Connection", "close"),
             ("Content-Length", toString body.length),
             ("Content-Type", "text/plain; charset=utf-8")]
          else
            [("Server", "mini-server"), ("Connection", "close"),
             ("Content-Length", toString body.length)]) := by
    simp only [http_response]
    split <;> rfl
  rw [hbase, lookup_foldl_pyDictSet _ _ _ h1, lookup_foldl_pyDictSet _ _ _ h2,
    lookup_foldl_pyDictSet _ _ _ h3]
  split <;> exact ⟨rfl, rfl, rfl⟩

theorem C2_mandatory_headers_amended_witness :
    (http_response 201 [104, 105]
        [("Content-Type", "application/json; charset=utf-8")]).headers.lookup "Content-Length"
      = some (toString ([104, 105] : List Nat).length)
    ∧ (http_response 201 [104, 105]
        [("Content-Type", "application/json; charset=utf-8")]).headers.lookup "Server"
      = some "mini-server"
    ∧ (http_response 201 [104, 105]
        [("Content-Type", "application/json; charset=utf-8")]).headers.lookup "Connection"
      = some "close" :=
  C2_mandatory_headers_amended 201 [104, 105]
    [("Content-Type", "application/json; charset=utf-8")]
    (by decide) (by decide) (by decide)

theorem lookup_qsInsert_self (d : List (String × List String)) (k v : String) :
    (qsInsert d k v).lookup k = some ((d.lookup k).getD [] ++ [v]) := by
  induction d with
  | nil => simp [qsInsert, List.lookup]
  | cons p rest ih =>
    obtain ⟨k0, vs⟩ := p
    by_cases h0 : k0 = k
    · subst h0
      simp [qsInsert, List.lookup]
    · have hk : (k == k0) = false := beq_eq_false_iff_ne.mpr (Ne.symm h0)
      simp [qsInsert, if_neg h0, List.lookup, hk, ih]

theorem lookup_qsInsert_ne (d : List (String × List String)) (k v k' : String) (h : k' ≠ k) :
    (qsInsert d k v).lookup k' = d.lookup k' := by
  induction d with
  | nil =>
    have hk : (k' == k) = false := beq_eq_false_iff_ne.mpr h
    simp [qsInsert, List.lookup, hk]
  | cons p rest ih =>
    obtain ⟨k0, vs⟩ := p
    by_cases h0 : k0 = k
    · subst h0
      have hk : (k' == k0) = false := beq_eq_false_iff_ne.mpr h
      simp [qsInsert, List.lookup, hk]
    · simp only [qsInsert, if_neg h0, List.lookup]
      cases hbeq : k' == k0 <;> simp [hbeq, ih]

theorem lookup_foldl_qsInsert (ps : List (String × String)) (d : List (String × List String))
    (k : String) :
    (ps.foldl (fun d nv => qsInsert d nv.1 nv.2) d).lookup k =
      match d.lookup k with
      | some vs => some (vs ++ gatherVals k ps)
      | none => if gatherVals k ps = [] then none else some (gatherVals k ps) := by
  induction ps generalizing d with
  | nil =>
    simp only [List.foldl_nil, gatherVals, List.filterMap_nil]
    cases d.lookup k <;> simp
  | cons nv ps ih =>
    obtain ⟨k0, v0⟩ := nv
    simp only [List.foldl_cons]
    rw [ih]
    by_cases h0 : k0 = k
    · subst h0
      rw [lookup_qsInsert_self]
      have hg : gatherVals k0 ((k0, v0) :: ps) = v0 :: gatherVals k0 ps := by
        simp [gatherVals]
      rw [hg]
      cases d.lookup k0 <;> simp
    · rw [lookup_qsInsert_ne d k0 v0 k (Ne.symm h0)]
      have hg : gatherVals k ((k0, v0) :: ps) = gatherVals k ps := by
        simp [gatherVals, h0]
      rw [hg]

/-- C4 fails as stated: the source builds `query` with
`urllib.parse.parse_qs` under its default `keep_blank_values=False`, which
silently drops every `key=value` occurrence whose value is empty.  For the
query string `"a="` the occurrence `a=` is present (the `&`-field `a=`
splits at `=` into the name `a` and an empty value) yet `a` is absent from
the resulting mapping. -/
theorem C4_empty_value_dropped_counterexample :
    (parse_qs "a=").lookup "a" = none
    ∧ splitAllChar '&' "a=".data = ["a=".data]
    ∧ splitOnceChar '=' "a=".data = some ("a".data, []) := by
  refine ⟨by decide, by decide, by decide⟩

/-- C4 amended: `query` groups repeated parameter names into the ordered
sequence of their values in order of appearance, and every `name=value`
occurrence kept by `parse_qsl` appears in the mapping — but occurrences
with an empty value (and fields without `=`) are silently dropped by
`parse_qs`'s default `keep_blank_values=False`, so only non-empty values
are never dropped. -/
theorem C4_query_grouping_amended (qs : String) :
    (∀ k, (parse_qs qs).lookup k =
      if gatherVals k (parse_qsl qs) = [] then none
      else some (gatherVals k (parse_qsl qs)))
    ∧ (∀ f ∈ splitAllChar '&' qs.data, ∀ nv, qslField f = some nv → nv ∈ parse_qsl qs) := by
  constructor
  · intro k
    have h := lookup_foldl_qsInsert (parse_qsl qs) [] k
    simpa [parse_qs, List.lookup] using h
  · intro f hf nv hnv
    exact List.mem_filterMap.mpr ⟨f, hf, hnv⟩

/-- The dynamic-family branch of `route`: for a path of the shape
`/todos/<segment>` the router parses the segment as a Python int, yielding
NOT_FOUND on failure, else dispatching on PATCH/DELETE. -/
theorem route_todos_seg (m seg : String) :
    route m ("/todos/" ++ seg) =
      match pyInt seg with
      | none => (RouteStatus.NOT_FOUND, none)
      | some i =>
        if m = "PATCH" then (RouteStatus.OK, some (Handler.patch i))
        else if m = "DELETE" then (RouteStatus.OK, some (Handler.delete i))
        else (RouteStatus.METHOD_NOT_ALLOWED, none) := by
  rfl

/-- C1 (confirmed): the router preserves the 404/405 distinction.  A path
matching no route pattern yields NOT_FOUND for every method; each static
route with an unsupported method yields METHOD_NOT_ALLOWED; for the
dynamic family `/todos/<segment>`, a segment that does not parse as a
Python int yields NOT_FOUND (no parse error propagates), while an integer
segment with a method other than PATCH or DELETE yields
METHOD_NOT_ALLOWED. -/
theorem C1_router_classification (method path : String) :
    ((path ≠ "/" ∧ path ≠ "/health" ∧ path ≠ "/todos" ∧ startswith path "/todos/" = false) →
      (route method path).1 = RouteStatus.NOT_FOUND)
    ∧ (path = "/" → method ≠ "GET" → (route method path).1 = RouteStatus.METHOD_NOT_ALLOWED)
    ∧ (path = "/health" → method ≠ "GET" →
        (route method path).1 = RouteStatus.METHOD_NOT_ALLOWED)
    ∧ (path = "/todos" → method ≠ "GET" → method ≠ "POST" →
        (route method path).1 = RouteStatus.METHOD_NOT_ALLOWED)
    ∧ (∀ seg, path = "/todos/" ++ seg → pyInt seg = none →
        (route method path).1 = RouteStatus.NOT_FOUND)
    ∧ (∀ seg i, path = "/todos/" ++ seg → pyInt seg = some i →
        method ≠ "PATCH" → method ≠ "DELETE" →
        (route method path).1 = RouteStatus.METHOD_NOT_ALLOWED) := by
  refine ⟨?_, ?_, ?_, ?_, ?_, ?_⟩
  · rintro ⟨h1, h2, h3, h4⟩
    simp [route, h1, h2, h3, h4]
  · intro hp hm
    subst hp
    simp [route, hm]
  · intro hp hm
    subst hp
    simp [route, hm]
  · intro hp hg hpo
    subst hp
    simp [route, hg, hpo]
  · intro seg hp hint
    subst hp
    rw [route_todos_seg, hint]
  · intro seg i hp hint hpa hde
    subst hp
    rw [route_todos_seg, hint]
    simp [hpa, hde]

theorem C1_router_classification_witness :
    (route "GET" "/nope").1 = RouteStatus.NOT_FOUND
    ∧ (route "PUT" "/todos").1 = RouteStatus.METHOD_NOT_ALLOWED
    ∧ (route "GET" "/todos/abc").1 = RouteStatus.NOT_FOUND
    ∧ (route "GET" "/todos/7").1 = RouteStatus.METHOD_NOT_ALLOWED :=
  ⟨(C1_router_classification "GET" "/nope").1
      ⟨by decide, by decide, by decide, by decide⟩,
   (C1_router_classification "PUT" "/todos").2.2.2.1 rfl (by decide) (by decide),
   (C1_router_classification "GET" "/todos/abc").2.2.2.2.1 "abc" rfl (by decide),
   (C1_router_classification "GET" "/todos/7").2.2.2.2.2 "7" 7 rfl (by decide)
     (by decide) (by decide)⟩

theorem eraseIdx_findIdx_go (p : Todo → Bool) (l : List Todo) :
    ∀ n i, l.findIdx? p n = some i → n ≤ i ∧ l.eraseIdx (i - n) = l.eraseP p := by
  induction l with
  | nil => intro n i h; simp at h
  | cons a l ih =>
    intro n i h
    rw [List.findIdx?_cons] at h
    by_cases hp : p a
    · rw [if_pos hp] at h
      obtain rfl : n = i := Option.some.inj h
      exact ⟨Nat.le_refl n, by simp [List.eraseP_cons_of_pos hp, Nat.sub_self]⟩
    · rw [if_neg hp] at h
      obtain ⟨h1, h2⟩ := ih (n + 1) i h
      refine ⟨Nat.le_of_succ_le h1, ?_⟩
      have hin : i - n = (i - (n + 1)) + 1 := by omega
      rw [hin, List.eraseIdx_cons_succ, List.eraseP_cons_of_neg hp, h2]

theorem eraseIdx_findIdx (p : Todo → Bool) (l : List Todo) (i : Nat)
    (h : l.findIdx? p = some i) : l.eraseIdx i = l.eraseP p := by
  simpa using (eraseIdx_findIdx_go p l 0 i h).2

/-- Under distinct ids, erasing the first todo with id `j` leaves no todo
with id `j`. -/
theorem eraseP_no_more (j : Int) :
    ∀ l : List Todo, (l.map Todo.id).Nodup → (∃ t ∈ l, t.id = j) →
      ∀ x ∈ l.eraseP (fun t => t.id == j), (x.id == j) = false := by
  intro l
  induction l with
  | nil => intro _ _ x hx; simp at hx
  | cons a l ih =>
    intro hn hex x hx
    have hn' : (l.map Todo.id).Nodup ∧ a.id ∉ l.map Todo.id := by
      rw [List.map_cons, List.nodup_cons] at hn
      exact ⟨hn.2, hn.1⟩
    by_cases hpa : a.id = j
    · rw [List.eraseP_cons_of_pos (by simp [hpa])] at hx
      rw [beq_eq_false_iff_ne]
      intro hxj
      have hmem : x.id ∈ l.map Todo.id := List.mem_map_of_mem Todo.id hx
      rw [hxj, ← hpa] at hmem
      exact hn'.2 hmem
    · rw [List.eraseP_cons_of_neg (by simp [hpa])] at hx
      rcases List.mem_cons.mp hx with rfl | hx'
      · exact beq_eq_false_iff_ne.mpr hpa
      · have hex' : ∃ t ∈ l, t.id = j := by
          rcases hex with ⟨t, ht, htj⟩
          rcases List.mem_cons.mp ht with rfl | h'
          · exact absurd htj hpa
          · exact ⟨t, h', htj⟩
        exact ih hn'.1 hex' x hx'

/-- C7 (confirmed): the delete handler returns 404 and leaves the store
unchanged when no todo has the requested id; otherwise it returns 204
with an empty body, erases exactly the first (under the id-uniqueness
invariant: the only) todo with that id, and leaves the counter untouched;
consequently, under distinct ids, a second DELETE of the same id returns
404 — it never succeeds twice. -/
theorem C7_delete_semantics (req : Request) (i : Int) (st : State) :
    ((∀ t ∈ st.todos, t.id ≠ i) →
      handle_delete_todo req i st
        = (.ok (json_response 404 (.obj [("error", .str "Todo not found")])), st))
    ∧ ((∃ t ∈ st.todos, t.id = i) →
      (handle_delete_todo req i st).1 = .ok (http_response 204 [] [])
      ∧ (handle_delete_todo req i st).2.todos = st.todos.eraseP (fun t => t.id == i)
      ∧ (handle_delete_todo req i st).2.next_id = st.next_id
      ∧ (http_response 204 [] []).body = [])
    ∧ ((st.todos.map Todo.id).Nodup → (∃ t ∈ st.todos, t.id = i) →
      (handle_delete_todo req i ((handle_delete_todo req i st).2)).1
        = .ok (json_response 404 (.obj [("error", .str "Todo not found")]))) := by
  refine ⟨?_, ?_, ?_⟩
  · intro hno
    have hnone : st.todos.findIdx? (fun t => t.id == i) = none :=
      List.findIdx?_eq_none_iff.mpr (fun x hx => beq_eq_false_iff_ne.mpr (hno x hx))
    simp [handle_delete_todo, hnone]
  · intro hex
    have hsome : (st.todos.findIdx? (fun t => t.id == i)).isSome := by
      rw [List.findIdx?_isSome, List.any_eq_true]
      rcases hex with ⟨t, ht, htj⟩
      exact ⟨t, ht, beq_iff_eq.mpr htj⟩
    obtain ⟨idx, hidx⟩ := Option.isSome_iff_exists.mp hsome
    refine ⟨?_, ?_, ?_, rfl⟩ <;>
      simp [handle_delete_todo, hidx, eraseIdx_findIdx _ _ _ hidx]
  · intro hn hex
    have hsome : (st.todos.findIdx? (fun t => t.id == i)).isSome := by
      rw [List.findIdx?_isSome, List.any_eq_true]
      rcases hex with ⟨t, ht, htj⟩
      exact ⟨t, ht, beq_iff_eq.mpr htj⟩
    obtain ⟨idx, hidx⟩ := Option.isSome_iff_exists.mp hsome
    have htodos : (handle_delete_todo req i st).2.todos
        = st.todos.eraseP (fun t => t.id == i) := by
      simp [handle_delete_todo, hidx, eraseIdx_findIdx _ _ _ hidx]
    have hno2 : ((handle_delete_todo req i st).2.todos.findIdx? (fun t => t.id == i)) = none := by
      rw [htodos]
      exact List.findIdx?_eq_none_iff.mpr (eraseP_no_more i st.todos hn hex)
    generalize hg : (handle_delete_todo req i st).2 = st2 at hno2 ⊢
    simp [handle_delete_todo, hno2]

theorem C7_delete_semantics_witness :
    ((handle_delete_todo c7req 1 c7st).1 = .ok (http_response 204 [] [])
      ∧ (handle_delete_todo c7req 1 c7st).2.todos = c7st.todos.eraseP (fun t => t.id == 1)
      ∧ (handle_delete_todo c7req 1 c7st).2.next_id = c7st.next_id
      ∧ (http_response 204 [] []).body = [])
    ∧ (handle_delete_todo c7req 1 ((handle_delete_todo c7req 1 c7st).2)).1
        = .ok (json_response 404 (.obj [("error", .str "Todo not found")])) :=
  ⟨(C7_delete_semantics c7req 1 c7st).2.1
      ⟨{ id := 1, text := "a", done := false, created_at := 0 }, by decide, rfl⟩,
   (C7_delete_semantics c7req 1 c7st).2.2 (by decide)
      ⟨{ id := 1, text := "a", done := false, created_at := 0 }, by decide, rfl⟩⟩

/-- C8 (confirmed): a 422 from the patch handler does not guarantee the
store is unchanged.  For a PATCH on an existing id whose JSON payload
holds both a `text` field trimming to non-empty and a non-boolean `done`
field, the handler returns the 422 "done must be boolean" response, but
the stored todo's `text` has already been mutated to the trimmed new
value (the text update precedes the done validation). -/
theorem C8_patch_mutates_text_before_done_check
    (loads : List Nat → Option Json) (req : Request) (todo_id : Int) (st : State)
    (todo : Todo) (s : String) (v : Json) (kvs : List (String × Json))
    (hct : startswith (pyDictGetD req.headers "content-type" "") "application/json" = true)
    (hfind : st.todos.find? (fun t => t.id == todo_id) = some todo)
    (hload : loads (effBody req.body) = some (Json.obj kvs))
    (htext : kvs.lookup "text" = some (Json.str s))
    (hs : pyStrip s ≠ "")
    (hdone : kvs.lookup "done" = some v)
    (hv : ∀ b, v ≠ Json.bool b) :
    handle_patch_todo loads req todo_id st
      = (.ok (json_response 422 (.obj [("error", .str "Field \x27done\x27 must be boolean")])),
         { st with
             todos := replaceFirst st.todos (fun t => t.id == todo_id)
                        ({ todo with text := pyStrip s }) }) := by
  have hsne : (s == "") = false := by
    rw [beq_eq_false_iff_ne]
    intro h
    exact hs (by rw [h]; rfl)
  have hstrip : pyOrEmptyStrStrip (some (Json.str s)) = .ok (pyStrip s) := by
    simp [pyOrEmptyStrStrip, Json.falsy, hsne]
  cases v with
  | bool b => exact absurd rfl (hv b)
  | null =>
    simp [handle_patch_todo, hct, hfind, hload, Json.pyContains, htext, Json.pyGet,
      hstrip, hs, patchDone, hdone, Json.pyIndex, hsne]
  | num n =>
    simp [handle_patch_todo, hct, hfind, hload, Json.pyContains, htext, Json.pyGet,
      hstrip, hs, patchDone, hdone, Json.pyIndex, hsne]
  | str s2 =>
    simp [handle_patch_todo, hct, hfind, hload, Json.pyContains, htext, Json.pyGet,
      hstrip, hs, patchDone, hdone, Json.pyIndex, hsne]
  | arr xs =>
    simp [handle_patch_todo, hct, hfind, hload, Json.pyContains, htext, Json.pyGet,
      hstrip, hs, patchDone, hdone, Json.pyIndex, hsne]
  | obj kvs2 =>
    simp [handle_patch_todo, hct, hfind, hload, Json.pyContains, htext, Json.pyGet,
      hstrip, hs, patchDone, hdone, Json.pyIndex, hsne]

theorem C8_patch_mutates_text_before_done_check_witness :
    handle_patch_todo c8loads c8req 1 c8st
      = (.ok (json_response 422 (.obj [("error", .str "Field \x27done\x27 must be boolean")])),
         { c8st with
             todos := replaceFirst c8st.todos (fun t => t.id == 1)
                        ({ id := 1, text := pyStrip "new", done := false, created_at := 0 }) }) :=
  C8_patch_mutates_text_before_done_check c8loads c8req 1 c8st
    { id := 1, text := "old", done := false, created_at := 0 } "new" (.num 1)
    [("text", .str "new"), ("done", .num 1)]
    rfl rfl rfl rfl (by decide) rfl (fun b h => Json.noConfusion h)

/-- C9 (confirmed): for a POST /todos whose content type indicates JSON
and whose body decodes to a JSON value that is not an object, the create
handler raises an internal fault (`payload.get` does not exist on the
decoded value) and the dispatcher converts it into the 500 response with
the fault's detail string — not a 400 or 422 — leaving the store
unchanged. -/
theorem C9_create_nonobject_payload_500
    (loads : List Nat → Option Json) (req : Request) (st : State) (now : Nat) (payload : Json)
    (hm : req.method = "POST") (hp : req.path = "/todos")
    (hct : startswith (pyDictGetD req.headers "content-type" "") "application/json" = true)
    (hload : loads (effBody req.body) = some payload)
    (hobj : ∀ kvs, payload ≠ Json.obj kvs) :
    ∃ e, dispatch loads req st now
      = (json_response 500 (.obj [("error", .str "Internal server error"),
          ("detail", .str e)]), st) := by
  have hroute : route req.method req.path = (.OK, some .create) := by
    rw [hm, hp]
    rfl
  have hget : ∃ e0, payload.pyGet "text" = .error e0 := by
    cases payload with
    | obj kvs => exact absurd rfl (hobj kvs)
    | null => exact ⟨_, rfl⟩
    | bool b => exact ⟨_, rfl⟩
    | num n => exact ⟨_, rfl⟩
    | str s => exact ⟨_, rfl⟩
    | arr xs => exact ⟨_, rfl⟩
  obtain ⟨e0, he0⟩ := hget
  refine ⟨e0, ?_⟩
  simp [dispatch, hroute, runHandler, handle_create_todo, hct, hload, he0]

theorem C9_create_nonobject_payload_500_witness :
    ∃ e, dispatch c9loads c9req initState 0
      = (json_response 500 (.obj [("error", .str "Internal server error"),
          ("detail", .str e)]), initState) :=
  C9_create_nonobject_payload_500 c9loads c9req initState 0 (Json.num 5)
    rfl rfl rfl rfl (fun _ h => Json.noConfusion h)

/-- Decomposition of a successful `split(b"\r\n\r\n", 1)`: the input is the
left part, the separator, and the right part. -/
theorem splitSep4_append : ∀ xs a b, splitSep4 xs = some (a, b) → xs = a ++ sepBytes ++ b := by
  intro xs
  induction xs using splitSep4.induct with
  | case1 rest =>
    intro a b h
    simp [splitSep4] at h
    obtain ⟨rfl, rfl⟩ := h
    simp [sepBytes]
  | case2 =>
    intro a b h
    simp [splitSep4] at h
  | case3 x rest hne ih =>
    intro a b h
    rw [splitSep4.eq_def] at h
    split at h
    · rename_i r heq
      injection heq with h1 h2
      exact (hne r h1 h2).elim
    · simp at h
    · rename_i hcon heq
      injection heq with h1 h2
      subst h1
      subst h2
      obtain ⟨ab, hsp, heq2⟩ := Option.map_eq_some'.mp h
      obtain ⟨a2, b2⟩ := ab
      cases heq2
      rw [ih a2 b2 hsp]
      simp

/-- C10 (confirmed): when the headers declare a Content-Length whose value
parses as a negative integer, the Frame Reader accepts the request without
any failure — the value parses as an integer so "Invalid Content-Length"
is not raised, the number of missing body bytes is non-positive so
`read_exact` is never consulted (no additional bytes are consumed from
the stream), and the buffered bytes are returned as-is. -/
theorem C10_negative_content_length
    (chunks : List (List Nat)) (data : List Nat) (rest : List (List Nat))
    (hb after : List Nat) (cl : String) (L : Int)
    (hloop : recvLoop chunks [] = .ok (data, rest))
    (hsplit : splitSep4 data = some (hb, after))
    (hcl : (recvHeaders hb).lookup "content-length" = some cl)
    (hint : pyInt cl = some L)
    (hneg : L < 0) :
    recv_http chunks = .ok data := by
  have hd : data = hb ++ sepBytes ++ after := splitSep4_append data hb after hsplit
  have hmiss : ¬ (L - (after.length : Int) > 0) := by
    have h0 : (0 : Int) ≤ after.length := Int.ofNat_nonneg _
    omega
  simp only [recv_http, hloop, hsplit, hcl, hint]
  rw [if_neg hmiss, ← hd]

theorem C10_negative_content_length_witness :
    recv_http [c10chunk] = .ok c10chunk :=
  C10_negative_content_length [c10chunk] c10chunk [] c10hb [] "-5" (-5)
    rfl rfl rfl rfl (by decide)

/-- When the `text` lookup is rejected, the coerce-and-strip expression
evaluates to the empty string. -/
theorem textRejected_strip (kvs : List (String × Json)) (h : textRejected kvs = true) :
    pyOrEmptyStrStrip (kvs.lookup "text") = .ok "" := by
  unfold textRejected at h
  cases hl : kvs.lookup "text" with
  | none => rfl
  | some v =>
    rw [hl] at h
    have h2 : (v.falsy || textStrEmpty v) = true := h
    cases hf : v.falsy with
    | true => simp [pyOrEmptyStrStrip, hf]
    | false =>
      rw [hf] at h2
      simp only [Bool.false_or] at h2
      cases v with
      | str s =>
        have hps : pyStrip s = "" := by simpa [textStrEmpty] using h2
        simp [pyOrEmptyStrStrip, hf, hps]
      | null => simp [textStrEmpty] at h2
      | bool b => simp [textStrEmpty] at h2
      | num n => simp [textStrEmpty] at h2
      | arr xs => simp [textStrEmpty] at h2
      | obj kvs2 => simp [textStrEmpty] at h2

/-- C3 fails as stated: for `{"text": true}` the `text` field is present
and is not a string trimming to the empty string, so the claim requires a
201 append; the handler instead raises an internal fault
(`True.strip()` does not exist) and leaves the store unchanged — the
dispatcher would surface it as a 500, not the claimed 201. -/
theorem C3_create_text_nonstring_counterexample :
    handle_create_todo c3loads c3req initState 0
      = (.error "AttributeError: object has no attribute \x27strip\x27", initState) := by
  rfl

/-- C3 amended: the create handler returns 422 when the content type does
not indicate JSON; otherwise 400 when the (empty-coerced) body does not
parse as JSON; otherwise, for a body parsing to a JSON object, it returns
422 when the `text` lookup is missing, falsy (null, false, 0, empty
string/array/object), or a string trimming to the empty string; raises an
internal fault (surfaced by the dispatcher as a 500) when the `text`
value is truthy but not a string; and otherwise assigns the next id,
appends the new todo with done=false, and returns 201 with the created
Todo. -/
theorem C3_create_classification_amended
    (loads : List Nat → Option Json) (req : Request) (st : State) (now : Nat) :
    (startswith (pyDictGetD req.headers "content-type" "") "application/json" = false →
      handle_create_todo loads req st now
        = (.ok (json_response 422 (.obj [("error",
            .str "Expected Content-Type: application/json")])), st))
    ∧ (startswith (pyDictGetD req.headers "content-type" "") "application/json" = true →
       loads (effBody req.body) = none →
      handle_create_todo loads req st now
        = (.ok (json_response 400 (.obj [("error", .str "Invalid JSON")])), st))
    ∧ (∀ kvs, startswith (pyDictGetD req.headers "content-type" "") "application/json" = true →
        loads (effBody req.body) = some (Json.obj kvs) → textRejected kvs = true →
      handle_create_todo loads req st now
        = (.ok (json_response 422 (.obj [("error", .str "Field \x27text\x27 is required")])), st))
    ∧ (∀ kvs v, startswith (pyDictGetD req.headers "content-type" "") "application/json" = true →
        loads (effBody req.body) = some (Json.obj kvs) →
        kvs.lookup "text" = some v → v.falsy = false → (∀ s, v ≠ Json.str s) →
      ∃ e, handle_create_todo loads req st now = (.error e, st))
    ∧ (∀ kvs s, startswith (pyDictGetD req.headers "content-type" "") "application/json" = true →
        loads (effBody req.body) = some (Json.obj kvs) →
        kvs.lookup "text" = some (Json.str s) → pyStrip s ≠ "" →
      handle_create_todo loads req st now
        = (.ok (json_response 201 (todoToJson ⟨st.next_id, pyStrip s, false, now⟩)),
           { st with
               todos := st.todos ++ [⟨st.next_id, pyStrip s, false, now⟩],
               next_id := st.next_id + 1 })) := by
  refine ⟨?_, ?_, ?_, ?_, ?_⟩
  · intro hct
    simp [handle_create_todo, hct]
  · intro hct hload
    simp [handle_create_todo, hct, hload]
  · intro kvs hct hload hrej
    simp [handle_create_todo, hct, hload, Json.pyGet, textRejected_strip kvs hrej]
  · intro kvs v hct hload htext hfalsy hnostr
    have hstrip : ∃ e, pyOrEmptyStrStrip (some v) = .error e := by
      cases v with
      | str s => exact absurd rfl (hnostr s)
      | null => simp [Json.falsy] at hfalsy
      | bool b =>
        exact ⟨"AttributeError: object has no attribute \x27strip\x27",
          by simp [pyOrEmptyStrStrip, hfalsy]⟩
      | num n =>
        exact ⟨"AttributeError: object has no attribute \x27strip\x27",
          by simp [pyOrEmptyStrStrip, hfalsy]⟩
      | arr xs =>
        exact ⟨"AttributeError: object has no attribute \x27strip\x27",
          by simp [pyOrEmptyStrStrip, hfalsy]⟩
      | obj kvs2 =>
        exact ⟨"AttributeError: object has no attribute \x27strip\x27",
          by simp [pyOrEmptyStrStrip, hfalsy]⟩
    obtain ⟨e, he⟩ := hstrip
    refine ⟨e, ?_⟩
    simp [handle_create_todo, hct, hload, Json.pyGet, htext, he]
  · intro kvs s hct hload htext hs
    have hsne : (s == "") = false := by
      rw [beq_eq_false_iff_ne]
      intro h
      exact hs (by rw [h]; rfl)
    have hstrip : pyOrEmptyStrStrip (some (Json.str s)) = .ok (pyStrip s) := by
      simp [pyOrEmptyStrStrip, Json.falsy, hsne]
    simp [handle_create_todo, hct, hload, Json.pyGet, htext, hstrip, hs]

theorem C3_create_classification_amended_witness :
    handle_create_todo c3okloads c3okreq initState 7
      = (.ok (json_response 201 (todoToJson ⟨initState.next_id, pyStrip " hi ", false, 7⟩)),
         { initState with
             todos := initState.todos ++ [⟨initState.next_id, pyStrip " hi ", false, 7⟩],
             next_id := initState.next_id + 1 }) :=
  (C3_create_classification_amended c3okloads c3okreq initState 7).2.2.2.2
    [("text", Json.str " hi ")] " hi " rfl rfl rfl (by decide)

theorem take_succ_flatten (data c : List Nat) (cs : List (List Nat)) (n : Nat) :
    data ++ ((c :: cs).take (n + 1)).flatten = (data ++ c) ++ (cs.take n).flatten := by
  simp [List.take_succ_cons, List.append_assoc]

/-- Shifting the scan-cap condition across one consumed chunk. -/
theorem scanFrom_shift (data c : List Nat) (cs : List (List Nat))
    (hsep : (splitSep4 data).isSome = false) (hc : c ≠ [])
    (hbig : ¬ (data ++ c).length > 2000000) :
    ScanFrom (data ++ c) cs ↔ ScanFrom data (c :: cs) := by
  constructor
  · rintro ⟨i, hi0, hile, hl, hcond⟩
    refine ⟨i + 1, Nat.succ_pos i, by simpa using Nat.succ_le_succ hile, ?_, ?_⟩
    · rw [take_succ_flatten]
      exact hl
    · intro j hj
      cases j with
      | zero => exact ⟨by simpa [List.getD] using hc, by simpa using hsep⟩
      | succ j2 =>
        have h := hcond j2 (by omega)
        refine ⟨by simpa [List.getD] using h.1, ?_⟩
        rw [take_succ_flatten]
        exact h.2
  · rintro ⟨i, hi0, hile, hl, hcond⟩
    cases i with
    | zero => omega
    | succ i2 =>
      rcases Nat.eq_zero_or_pos i2 with h0 | hpos
      · subst h0
        exfalso
        apply hbig
        rw [take_succ_flatten] at hl
        simpa using hl
      · refine ⟨i2, hpos, by simpa using hile, ?_, ?_⟩
        · rw [take_succ_flatten] at hl
          exact hl
        · intro j hj
          have h := hcond (j + 1) (by omega)
          refine ⟨by simpa [List.getD] using h.1, ?_⟩
          have h2 := h.2
          rw [take_succ_flatten] at h2
          exact h2

/-- The header-scan loop fails (necessarily with "Request too large")
exactly when the accumulated buffer exceeds the 2,000,000-byte cap while
scanning for the separator. -/
theorem recvLoop_too_large : ∀ (chunks : List (List Nat)) (data : List Nat),
    recvLoop chunks data = .error "Request too large" ↔ ScanFrom data chunks := by
  intro chunks
  induction chunks with
  | nil =>
    intro data
    refine iff_of_false ?_ ?_
    · intro h
      rw [recvLoop] at h
      exact Except.noConfusion h
    · rintro ⟨i, hi0, hile, -, -⟩
      simp at hile
      omega
  | cons c cs ih =>
    intro data
    rw [recvLoop]
    cases hsep : (splitSep4 data).isSome with
    | true =>
      rw [if_pos rfl]
      refine iff_of_false (fun h => Except.noConfusion h) ?_
      rintro ⟨i, hi0, hile, hl, hcond⟩
      have h0 := (hcond 0 hi0).2
      simp only [List.take_zero, List.flatten_nil, List.append_nil] at h0
      rw [hsep] at h0
      exact Bool.noConfusion h0
    | false =>
      rw [if_neg (by simp)]
      by_cases hc : c = []
      · rw [if_pos hc]
        refine iff_of_false (fun h => Except.noConfusion h) ?_
        rintro ⟨i, hi0, hile, hl, hcond⟩
        exact (hcond 0 hi0).1 (by simpa [List.getD] using hc)
      · rw [if_neg hc]
        by_cases hbig : (data ++ c).length > 2000000
        · rw [if_pos hbig]
          refine iff_of_true rfl ?_
          refine ⟨1, Nat.one_pos, by simp, ?_, ?_⟩
          · rw [take_succ_flatten]
            simpa using hbig
          · intro j hj
            have hj0 : j = 0 := by omega
            subst hj0
            exact ⟨by simpa [List.getD] using hc, by simpa using hsep⟩
        · rw [if_neg hbig]
          rw [ih (data ++ c)]
          exact scanFrom_shift data c cs hsep hc hbig

/-- The header-scan loop raises only the "Request too large" condition. -/
theorem recvLoop_error_string : ∀ (chunks : List (List Nat)) (data : List Nat) (e : String),
    recvLoop chunks data = .error e → e = "Request too large" := by
  intro chunks
  induction chunks with
  | nil =>
    intro data e h
    rw [recvLoop] at h
    exact Except.noConfusion h
  | cons c cs ih =>
    intro data e h
    rw [recvLoop] at h
    split at h
    · exact Except.noConfusion h
    · split at h
      · exact Except.noConfusion h
      · split at h
        · exact (Except.error.inj h).symm
        · exact ih _ _ h

/-- After a successful scan, the Frame Reader either fails with
"Invalid Content-Length" or returns bytes. -/
theorem recv_http_ok_cases (chunks : List (List Nat)) (data : List Nat)
    (rest : List (List Nat)) (hr : recvLoop chunks [] = .ok (data, rest)) :
    recv_http chunks = .error "Invalid Content-Length" ∨ ∃ bs, recv_http chunks = .ok bs := by
  cases hsp : splitSep4 data with
  | none => exact Or.inr ⟨data, by simp [recv_http, hr, hsp]⟩
  | some q =>
    obtain ⟨hb, after⟩ := q
    cases hcl : (recvHeaders hb).lookup "content-length" with
    | none => exact Or.inr ⟨data, by simp [recv_http, hr, hsp, hcl]⟩
    | some cl =>
      cases hint : pyInt cl with
      | none => exact Or.inl (by simp [recv_http, hr, hsp, hcl, hint])
      | some L =>
        right
        by_cases hmiss : (L - (after.length : Int) > 0)
        · refine ⟨hb ++ sepBytes ++ after
              ++ (read_exact rest (L - (after.length : Int)).toNat).1, ?_⟩
          simp only [recv_http, hr, hsp, hcl, hint]
          rw [if_pos hmiss]
        · refine ⟨hb ++ sepBytes ++ after, ?_⟩
          simp only [recv_http, hr, hsp, hcl, hint]
          rw [if_neg hmiss]

/-- After a successful scan, the "Invalid Content-Length" failure occurs
exactly when a `content-length` header is present whose value does not
parse as a Python int. -/
theorem recv_http_invalid_cl (chunks : List (List Nat)) (data : List Nat)
    (rest : List (List Nat)) (hr : recvLoop chunks [] = .ok (data, rest)) :
    recv_http chunks = .error "Invalid Content-Length" ↔
      ∃ hb after cl, splitSep4 data = some (hb, after)
        ∧ (recvHeaders hb).lookup "content-length" = some cl ∧ pyInt cl = none := by
  cases hsp : splitSep4 data with
  | none =>
    refine iff_of_false ?_ ?_
    · intro h
      simp [recv_http, hr, hsp] at h
    · rintro ⟨hb, after, cl, hsp2, -, -⟩
      exact Option.noConfusion hsp2
  | some q =>
    obtain ⟨hb, after⟩ := q
    cases hcl : (recvHeaders hb).lookup "content-length" with
    | none =>
      refine iff_of_false ?_ ?_
      · intro h
        simp [recv_http, hr, hsp, hcl] at h
      · rintro ⟨hb2, after2, cl2, hsp2, hcl2, -⟩
        injection hsp2 with hpair
        injection hpair with h1 h2
        subst h1
        rw [hcl] at hcl2
        exact Option.noConfusion hcl2
    | some cl =>
      cases hint : pyInt cl with
      | none =>
        refine iff_of_true ?_ ⟨hb, after, cl, rfl, hcl, hint⟩
        simp [recv_http, hr, hsp, hcl, hint]
      | some L =>
        refine iff_of_false ?_ ?_
        · intro h
          simp only [recv_http, hr, hsp, hcl, hint] at h
          split at h <;> exact Except.noConfusion h
        · rintro ⟨hb2, after2, cl2, hsp2, hcl2, hint2⟩
          injection hsp2 with hpair
          injection hpair with h1 h2
          subst h1
          rw [hcl] at hcl2
          injection hcl2 with h3
          subst h3
          rw [hint] at hint2
          exact Option.noConfusion hint2

/-- C5 (confirmed): the Frame Reader fails with "Request too large"
exactly when the accumulated buffer exceeds 2,000,000 bytes while
scanning for the header separator; after a successful scan it fails with
"Invalid Content-Length" exactly when a `content-length` header is
present whose value does not parse as an integer; and these two are its
only failures — in all other cases it returns bytes. -/
theorem C5_frame_reader_failures (chunks : List (List Nat)) :
    (recv_http chunks = .error "Request too large" ↔ ScanFrom [] chunks)
    ∧ (∀ data rest, recvLoop chunks [] = .ok (data, rest) →
        (recv_http chunks = .error "Invalid Content-Length" ↔
          ∃ hb after cl, splitSep4 data = some (hb, after)
            ∧ (recvHeaders hb).lookup "content-length" = some cl ∧ pyInt cl = none))
    ∧ (∀ e, recv_http chunks = .error e →
        e = "Request too large" ∨ e = "Invalid Content-Length") := by
  refine ⟨?_, ?_, ?_⟩
  · cases hr : recvLoop chunks [] with
    | error e =>
      have he := recvLoop_error_string chunks [] e hr
      subst he
      exact iff_of_true (by simp [recv_http, hr]) ((recvLoop_too_large chunks []).mp hr)
    | ok p =>
      obtain ⟨data, rest⟩ := p
      refine iff_of_false ?_ ?_
      · intro h
        rcases recv_http_ok_cases chunks data rest hr with hinv | ⟨bs, hok⟩
        · rw [h] at hinv
          exact absurd (Except.error.inj hinv) (by decide)
        · rw [h] at hok
          exact Except.noConfusion hok
      · intro hsf
        have hcontra := (recvLoop_too_large chunks []).mpr hsf
        rw [hr] at hcontra
        exact Except.noConfusion hcontra
  · intro data rest hr
    exact recv_http_invalid_cl chunks data rest hr
  · intro e h
    cases hr : recvLoop chunks [] with
    | error e2 =>
      have he := recvLoop_error_string chunks [] e2 hr
      subst he
      left
      have hrtl : recv_http chunks = .error "Request too large" := by simp [recv_http, hr]
      rw [h] at hrtl
      exact Except.error.inj hrtl
    | ok p =>
      obtain ⟨data, rest⟩ := p
      rcases recv_http_ok_cases chunks data rest hr with hinv | ⟨bs, hok⟩
      · right
        rw [h] at hinv
        exact Except.error.inj hinv
      · rw [h] at hok
        exact Except.noConfusion hok

theorem C5_frame_reader_failures_witness :
    recv_http [c5chunk] = .error "Invalid Content-Length" :=
  ((C5_frame_reader_failures [c5chunk]).2.1 c5chunk [] rfl).mpr
    ⟨c5hb, [], "abc", rfl, rfl, rfl⟩

/-- The create handler either leaves the store unchanged or appends one
todo carrying the current counter value and increments the counter. -/
theorem create_cases (loads : List Nat → Option Json) (req : Request) (st : State) (now : Nat) :
    (handle_create_todo loads req st now).2 = st
    ∨ ∃ text, handle_create_todo loads req st now
        = (.ok (json_response 201 (todoToJson ⟨st.next_id, text, false, now⟩)),
           { st with
               todos := st.todos ++ [⟨st.next_id, text, false, now⟩],
               next_id := st.next_id + 1 }) := by
  unfold handle_create_todo
  repeat' split
  all_goals first
    | exact Or.inl rfl
    | (rename_i text heq hne; exact Or.inr ⟨text, rfl⟩)

theorem handle_list_state (req : Request) (st : State) :
    (handle_list_todos req st).2 = st := by
  unfold handle_list_todos
  repeat' split
  all_goals rfl

/-- Replacing the first match with a todo of the same id preserves the id
sequence. -/
theorem replaceFirst_map_id (p : Todo → Bool) (new : Todo) :
    ∀ (l : List Todo) (t : Todo), l.find? p = some t → new.id = t.id →
      (replaceFirst l p new).map Todo.id = l.map Todo.id := by
  intro l
  induction l with
  | nil => intro t h _; exact Option.noConfusion h
  | cons a l ih =>
    intro t h hid
    by_cases hpa : p a
    · rw [List.find?_cons_of_pos l hpa] at h
      injection h with h2
      subst h2
      simp [replaceFirst, hpa, hid]
    · rw [List.find?_cons_of_neg l hpa] at h
      simp only [replaceFirst, if_neg hpa, List.map_cons]
      rw [ih t h hid]

/-- After replacing the first match with a matching element, that element
is the first match. -/
theorem replaceFirst_find (p : Todo → Bool) (new : Todo) (hnew : p new = true) :
    ∀ (l : List Todo) (t : Todo), l.find? p = some t →
      (replaceFirst l p new).find? p = some new := by
  intro l
  induction l with
  | nil => intro t h; exact Option.noConfusion h
  | cons a l ih =>
    intro t h
    by_cases hpa : p a
    · simp [replaceFirst, hpa, List.find?_cons_of_pos _ hnew]
    · rw [List.find?_cons_of_neg l hpa] at h
      simp only [replaceFirst, if_neg hpa]
      rw [List.find?_cons_of_neg _ hpa]
      exact ih t h

/-- The `done` phase of the patch handler never changes the id sequence or
the counter (given that `todo` stands for the store's first id match). -/
theorem patchDone_state (payload : Json) (todo_id : Int) (todo : Todo) (st : State)
    (hfind : ∃ t, st.todos.find? (fun t2 => t2.id == todo_id) = some t ∧ todo.id = t.id) :
    ((patchDone payload todo_id todo st).2.todos.map Todo.id = st.todos.map Todo.id)
    ∧ (patchDone payload todo_id todo st).2.next_id = st.next_id := by
  obtain ⟨t, hf, hid⟩ := hfind
  unfold patchDone
  repeat' split
  all_goals first
    | exact ⟨rfl, rfl⟩
    | (refine ⟨?_, rfl⟩
       exact replaceFirst_map_id _ _ st.todos t hf hid)

/-- The patch handler never changes the id sequence or the counter. -/
theorem handle_patch_state (loads : List Nat → Option Json) (req : Request) (todo_id : Int)
    (st : State) :
    ((handle_patch_todo loads req todo_id st).2.todos.map Todo.id = st.todos.map Todo.id)
    ∧ (handle_patch_todo loads req todo_id st).2.next_id = st.next_id := by
  unfold handle_patch_todo
  split
  · exact ⟨rfl, rfl⟩
  · split
    · exact ⟨rfl, rfl⟩
    · rename_i todo heq
      split
      · exact ⟨rfl, rfl⟩
      · rename_i payload hload
        split
        · exact ⟨rfl, rfl⟩
        · rename_i hasText hcont
          split
          · split
            · exact ⟨rfl, rfl⟩
            · rename_i got hget
              split
              · exact ⟨rfl, rfl⟩
              · rename_i new_text hstrip
                split
                · exact ⟨rfl, rfl⟩
                · have hp := List.find?_some heq
                  have hfind1 := replaceFirst_find (fun t2 => t2.id == todo_id)
                      ({ todo with text := new_text }) hp st.todos todo heq
                  have hmap := replaceFirst_map_id (fun t2 => t2.id == todo_id)
                      ({ todo with text := new_text }) st.todos todo heq rfl
                  have h2 := patchDone_state payload todo_id ({ todo with text := new_text })
                      ({ st with
                          todos := replaceFirst st.todos (fun t2 => t2.id == todo_id)
                                     ({ todo with text := new_text }) })
                      ⟨{ todo with text := new_text }, hfind1, rfl⟩
                  constructor
                  · rw [h2.1]
                    exact hmap
                  · rw [h2.2]
          · exact patchDone_state payload todo_id todo st ⟨todo, heq, rfl⟩

/-- The delete handler either leaves the store unchanged or erases the
first id match, never touching the counter. -/
theorem handle_delete_state (req : Request) (todo_id : Int) (st : State) :
    (handle_delete_todo req todo_id st).2 = st
    ∨ ((handle_delete_todo req todo_id st).2.todos
          = st.todos.eraseP (fun t => t.id == todo_id)
        ∧ (handle_delete_todo req todo_id st).2.next_id = st.next_id) := by
  cases hidx : st.todos.findIdx? (fun t => t.id == todo_id) with
  | none =>
    left
    simp [handle_delete_todo, hidx]
  | some i =>
    right
    simp [handle_delete_todo, hidx, eraseIdx_findIdx _ _ _ hidx]

/-- Every handler either preserves the counter while keeping the id
sequence a sublist of the old one, or performs a create (appending a todo
carrying the counter value and incrementing it). -/
theorem runHandler_effect (loads : List Nat → Option Json) (h : Handler) (req : Request)
    (st : State) (now : Nat) :
    ((runHandler loads h req st now).2.next_id = st.next_id
      ∧ List.Sublist ((runHandler loads h req st now).2.todos.map Todo.id)
          (st.todos.map Todo.id))
    ∨ ∃ text, (runHandler loads h req st now).2
        = { st with
              todos := st.todos ++ [⟨st.next_id, text, false, now⟩],
              next_id := st.next_id + 1 } := by
  cases h with
  | home => exact Or.inl ⟨rfl, List.Sublist.refl _⟩
  | health => exact Or.inl ⟨rfl, List.Sublist.refl _⟩
  | listTodos =>
    have hs : (runHandler loads .listTodos req st now).2 = st := handle_list_state req st
    rw [hs]
    exact Or.inl ⟨rfl, List.Sublist.refl _⟩
  | create =>
    rcases create_cases loads req st now with h1 | ⟨text, h2⟩
    · have hs : (runHandler loads .create req st now).2 = st := h1
      rw [hs]
      exact Or.inl ⟨rfl, List.Sublist.refl _⟩
    · right
      refine ⟨text, ?_⟩
      show (handle_create_todo loads req st now).2 = _
      rw [h2]
  | patch i =>
    have hp := handle_patch_state loads req i st
    exact Or.inl ⟨hp.2, hp.1 ▸ List.Sublist.refl _⟩
  | delete i =>
    rcases handle_delete_state req i st with h1 | ⟨h2, h3⟩
    · have hs : (runHandler loads (.delete i) req st now).2 = st := h1
      rw [hs]
      exact Or.inl ⟨rfl, List.Sublist.refl _⟩
    · refine Or.inl ⟨h3, ?_⟩
      show List.Sublist ((handle_delete_todo req i st).2.todos.map Todo.id) _
      rw [h2]
      exact (List.eraseP_sublist _).map Todo.id

/-- The dispatcher's store effect: either id-sequence sublist with
unchanged counter, or a create. -/
theorem dispatch_effect (loads : List Nat → Option Json) (req : Request) (st : State)
    (now : Nat) :
    ((dispatch loads req st now).2.next_id = st.next_id
      ∧ List.Sublist ((dispatch loads req st now).2.todos.map Todo.id)
          (st.todos.map Todo.id))
    ∨ ∃ text, (dispatch loads req st now).2
        = { st with
              todos := st.todos ++ [⟨st.next_id, text, false, now⟩],
              next_id := st.next_id + 1 } := by
  rcases hroute : route req.method req.path with ⟨rs, oh⟩
  cases rs with
  | NOT_FOUND =>
    have hs : (dispatch loads req st now).2 = st := by simp [dispatch, hroute]
    rw [hs]
    exact Or.inl ⟨rfl, List.Sublist.refl _⟩
  | METHOD_NOT_ALLOWED =>
    have hs : (dispatch loads req st now).2 = st := by simp [dispatch, hroute]
    rw [hs]
    exact Or.inl ⟨rfl, List.Sublist.refl _⟩
  | OK =>
    cases oh with
    | none =>
      have hs : (dispatch loads req st now).2 = st := by simp [dispatch, hroute]
      rw [hs]
      exact Or.inl ⟨rfl, List.Sublist.refl _⟩
    | some h =>
      have hd2 : (dispatch loads req st now).2 = (runHandler loads h req st now).2 := by
        simp only [dispatch, hroute]
        rcases hrh : runHandler loads h req st now with ⟨r, st2⟩
        cases r <;> rfl
      rw [hd2]
      exact runHandler_effect loads h req st now

theorem stepR_next_id_le (s s2 : State) (h : StepR s s2) : s.next_id ≤ s2.next_id := by
  cases h with
  | serve loads req now s =>
    rcases dispatch_effect loads req s now with ⟨h1, -⟩ | ⟨text, h2⟩
    · rw [h1]
    · rw [h2]
      simp

theorem rtg_next_id_le (s s2 : State) (h : Relation.ReflTransGen StepR s s2) :
    s.next_id ≤ s2.next_id := by
  induction h with
  | refl => exact le_refl _
  | tail hseg hstep ih => exact le_trans ih (stepR_next_id_le _ _ hstep)

theorem storeInv_step (s s2 : State) (h : StepR s s2) (hinv : StoreInv s) : StoreInv s2 := by
  cases h with
  | serve loads req now s =>
    rcases dispatch_effect loads req s now with ⟨h1, h2⟩ | ⟨text, h3⟩
    · constructor
      · exact List.Nodup.sublist h2 hinv.1
      · intro t ht
        have hmem : t.id ∈ (dispatch loads req s now).2.todos.map Todo.id :=
          List.mem_map_of_mem Todo.id ht
        have hmem2 := h2.subset hmem
        obtain ⟨u, hu, hue⟩ := List.mem_map.mp hmem2
        rw [h1, ← hue]
        exact hinv.2 u hu
    · rw [h3]
      constructor
      · show ((s.todos ++ [(⟨s.next_id, text, false, now⟩ : Todo)]).map Todo.id).Nodup
        rw [List.map_append, List.nodup_append]
        refine ⟨hinv.1, by simp, ?_⟩
        intro a ha hb
        simp only [List.map_cons, List.map_nil, List.mem_singleton] at hb
        obtain ⟨u, hu, hue⟩ := List.mem_map.mp ha
        have hlt := hinv.2 u hu
        rw [hb] at hue
        have hue2 : u.id = s.next_id := by simpa using hue
        omega
      · intro t ht
        show t.id < s.next_id + 1
        rcases List.mem_append.mp ht with hm | hm
        · have := hinv.2 t hm
          omega
        · simp only [List.mem_singleton] at hm
          subst hm
          simp

theorem reachable_inv (s : State) (h : Reachable s) : StoreInv s := by
  unfold Reachable at h
  induction h with
  | refl => exact ⟨List.nodup_nil, fun t ht => absurd ht (List.not_mem_nil t)⟩
  | tail hseg hstep ih => exact storeInv_step _ _ hstep ih

/-- A successful create issues exactly the current counter value as the
new id, increments the counter, and is one dispatcher step. -/
theorem createStep_spec (st : State) (t : Todo) (st2 : State) (h : CreateStep st t st2) :
    t.id = st.next_id ∧ st2.next_id = st.next_id + 1 ∧ StepR st st2 := by
  obtain ⟨loads, req, now, r, heq, happ⟩ := h
  rcases create_cases loads req st now with h1 | ⟨text, h2⟩
  · exfalso
    have hs : st2 = st := by
      have hsnd := congrArg Prod.snd heq
      rw [h1] at hsnd
      exact hsnd.symm
    rw [hs] at happ
    simp at happ
  · rw [heq] at h2
    injection h2 with hr hst
    subst hst
    have happ2 : st.todos ++ [(⟨st.next_id, text, false, now⟩ : Todo)]
        = st.todos ++ [t] := happ
    have ht : (⟨st.next_id, text, false, now⟩ : Todo) = t := by
      simpa using happ2
    refine ⟨by rw [← ht], by simp, ?_⟩
    have hstep := StepR.serve loads { req with method := "POST", path := "/todos" } now st
    have hrun : runHandler loads Handler.create
        { req with method := "POST", path := "/todos" } st now
        = (Except.ok r,
           { st with
               todos := st.todos ++ [⟨st.next_id, text, false, now⟩],
               next_id := st.next_id + 1 }) := by
      show handle_create_todo loads { req with method := "POST", path := "/todos" } st now = _
      have hsame : handle_create_todo loads { req with method := "POST", path := "/todos" } st now
          = handle_create_todo loads req st now := rfl
      rw [hsame, heq]
    have hroute : route ({ req with method := "POST", path := "/todos" } : Request).method
        ({ req with method := "POST", path := "/todos" } : Request).path
        = (RouteStatus.OK, some Handler.create) := rfl
    have hd : (dispatch loads { req with method := "POST", path := "/todos" } st now).2
        = { st with
              todos := st.todos ++ [⟨st.next_id, text, false, now⟩],
              next_id := st.next_id + 1 } := by
      simp only [dispatch, hroute, hrun]
    rw [hd] at hstep
    exact hstep

/-- C6 (confirmed): in every reachable store state all todo ids are
distinct and lie strictly below the counter; the counter never decreases
across served requests; a successful create issues exactly the current
counter value and increments it; consequently any two creates separated
by arbitrarily many requests (including deletes) yield strictly
increasing ids, and a created id never collides with any id (deleted or
not) present in an earlier reachable state. -/
theorem C6_id_counter_invariants :
    (∀ s, Reachable s → (s.todos.map Todo.id).Nodup ∧ ∀ t ∈ s.todos, t.id < s.next_id)
    ∧ (∀ s s2, Relation.ReflTransGen StepR s s2 → s.next_id ≤ s2.next_id)
    ∧ (∀ st t st2, CreateStep st t st2 →
        t.id = st.next_id ∧ st2.next_id = st.next_id + 1 ∧ StepR st st2)
    ∧ (∀ s1 t1 s1b s2 t2 s2b, CreateStep s1 t1 s1b →
        Relation.ReflTransGen StepR s1b s2 → CreateStep s2 t2 s2b → t1.id < t2.id)
    ∧ (∀ s, Reachable s → ∀ s2 t2 s2b, Relation.ReflTransGen StepR s s2 →
        CreateStep s2 t2 s2b → ∀ t ∈ s.todos, t2.id ≠ t.id) := by
  refine ⟨fun s h => reachable_inv s h, fun s s2 h => rtg_next_id_le s s2 h,
    fun st t st2 h => createStep_spec st t st2 h, ?_, ?_⟩
  · intro s1 t1 s1b s2 t2 s2b h1 hseg h2
    obtain ⟨e1, e2, -⟩ := createStep_spec _ _ _ h1
    obtain ⟨f1, -, -⟩ := createStep_spec _ _ _ h2
    have hle := rtg_next_id_le _ _ hseg
    omega
  · intro s hs s2 t2 s2b hseg h2 t ht
    obtain ⟨f1, -, -⟩ := createStep_spec _ _ _ h2
    have hle := rtg_next_id_le _ _ hseg
    have hbound := (reachable_inv s hs).2 t ht
    omega

theorem C6_id_counter_invariants_witness :
    (((dispatch c3okloads c3okreq initState 0).2.todos.map Todo.id).Nodup
      ∧ ∀ t ∈ (dispatch c3okloads c3okreq initState 0).2.todos,
          t.id < (dispatch c3okloads c3okreq initState 0).2.next_id) :=
  C6_id_counter_invariants.1 _
    (Relation.ReflTransGen.single (StepR.serve c3okloads c3okreq 0 initState))

theorem C4_query_grouping_amended_witness :
    ((parse_qs "a=1&b=&a=2").lookup "a" =
      if gatherVals "a" (parse_qsl "a=1&b=&a=2") = [] then none
      else some (gatherVals "a" (parse_qsl "a=1&b=&a=2")))
    ∧ ("a", "1") ∈ parse_qsl "a=1&b=&a=2" :=
  ⟨(C4_query_grouping_amended "a=1&b=&a=2").1 "a",
   (C4_query_grouping_amended "a=1&b=&a=2").2 "a=1".data (by decide) ("a", "1") (by decide)⟩

end MiniServer
